import Mathlib

/-!
Verification development for the `issek` chat backend.

The Python sources under `backend/` are embedded shallowly:

* `backend/permissions.py` — the authorization engine (pure decision
  functions over the persisted state);
* `backend/routes_chat.py` — the HTTP routes for chats and messages
  (modelled as state-passing functions `DB → … → Except Err α × DB`);
* `backend/socket_manager.py` — the realtime session registry (the three
  in-memory maps and the socket event handlers that mutate them);
* the `database` helper module imported by `backend/permissions.py` and
  `backend/routes_chat.py` is not present under `backend/`; its functions
  (`get_user_by_id`, `get_chat_by_id`, `get_message_by_id`, `is_blocked`,
  `is_blocked_by_any`, `is_user_banned`, `get_member_role`,
  `update_message`, …) are translated from the repository's own copy in
  `fixx_me/database_enhanced.py`.

Documents of the store are modelled as Lean structures carrying every field
any of the embedded functions reads; a field irrelevant to a given chat kind
is simply left at its default, as in the schemaless document store.
Timestamps are natural numbers (seconds); 48 hours is `172800`.
Python truthiness of the loosely-typed permission payloads is modelled
explicitly (`RVal.truthy`, `PermVal.truthy`).
-/

/-- HTTP-style error: status code (404, 403, 400, …) plus detail string. -/
structure Err where
  status : Nat
  detail : String
deriving DecidableEq, Repr

/-- Value stored under one key of a per-member restriction / admin-rights
dict: either a boolean flag (restrictions such as `can_send_messages`) or a
list of permission names (the `permissions` key of admin rights). -/
inductive RVal where
  | rbool (b : Bool)
  | rlist (l : List String)
deriving DecidableEq, Repr

/-- Python truthiness of an `RVal`. -/
def RVal.truthy : RVal → Bool
  | .rbool b => b
  | .rlist l => !l.isEmpty

/-- The shape-shifting permission payload attached to a member record:
either a plain string (the owner's `"all"`) or a string-keyed dict. -/
inductive PermVal where
  | pstr (s : String)
  | pdict (d : List (String × RVal))
deriving DecidableEq, Repr

/-- Python truthiness of a `PermVal` (non-empty string / non-empty dict). -/
def PermVal.truthy : PermVal → Bool
  | .pstr s => !s.isEmpty
  | .pdict d => !d.isEmpty

/-- Python truthiness of an optional permission payload (`None` is falsy). -/
def optTruthy : Option PermVal → Bool
  | none => false
  | some v => v.truthy

/-- Python `a or b` on optional permission payloads
(`member.get('admin_rights') or member.get('restrictions')`). -/
def pyOrPerm (a b : Option PermVal) : Option PermVal :=
  if optTruthy a then a else b

/-- A member record of the enhanced chat schema (`members` array):
`user_id`, optional `role` (read with default `"member"`), optional
`admin_rights` and `restrictions` payloads. -/
structure Member where
  user_id : String
  role : Option String := none
  admin_rights : Option PermVal := none
  restrictions : Option PermVal := none
deriving DecidableEq, Repr

/-- A chat document.  The flat schema written by `routes_chat.py` uses
`participants`/`admins`/`created_by`; the enhanced schema read by
`permissions.py` uses `owner_id`/`members`/`subscribers`/
`default_permissions`/`banned_users`.  Both live in the same schemaless
collection, so one structure carries all fields, each defaulted. -/
structure Chat where
  id : String
  chat_type : String := "group"
  participants : List String := []
  admins : List String := []
  created_by : String := ""
  owner_id : String := ""
  members : List Member := []
  subscribers : List String := []
  default_permissions : List (String × Bool) := []
  banned_users : List String := []
  only_admins_can_post : Bool := false
  pinned_messages : List String := []
deriving DecidableEq, Repr

/-- A user document: id, symmetric-by-convention `friends` list and the
directed `blocked_users` list. -/
structure User where
  id : String
  friends : List String := []
  blocked_users : List String := []
deriving DecidableEq, Repr

/-- A message document. `reactions` is the emoji → reactor-ids dict,
modelled as an association list preserving Python dict insertion order. -/
structure Msg where
  id : String
  chat_id : String
  sender_id : String
  content : String
  message_type : String := "text"
  reply_to : Option String := none
  status : String := "sent"
  delivered_to : List String := []
  read_by : List String := []
  reactions : List (String × List String) := []
  edited : Bool := false
  deleted : Bool := false
  deleted_for : List String := []
  created_at : Nat := 0
  updated_at : Nat := 0
deriving DecidableEq, Repr

/-- The persisted store: `users`, `chats`, `messages` collections plus the
`blocks` collection of (blocker, blocked) pairs used by
`database_enhanced.is_blocked`. -/
structure DB where
  users : List User := []
  chats : List Chat := []
  messages : List Msg := []
  blocks : List (String × String) := []
deriving DecidableEq, Repr

/-- `database.get_user_by_id`: first user document with the given id. -/
def get_user_by_id (db : DB) (user_id : String) : Option User :=
  db.users.find? (fun u => u.id = user_id)

/-- `database.get_chat_by_id`: first chat document with the given id. -/
def get_chat_by_id (db : DB) (chat_id : String) : Option Chat :=
  db.chats.find? (fun c => c.id = chat_id)

/-- `database.get_message_by_id`: first message document with the given id. -/
def get_message_by_id (db : DB) (message_id : String) : Option Msg :=
  db.messages.find? (fun m => m.id = message_id)

/-- `database.is_blocked(blocker, blocked)`: a document in the `blocks`
collection with that blocker/blocked pair exists. -/
def is_blocked (db : DB) (blocker_id blocked_id : String) : Bool :=
  decide ((blocker_id, blocked_id) ∈ db.blocks)

/-- `database.is_blocked_by_any`: either direction is blocked. -/
def is_blocked_by_any (db : DB) (user1_id user2_id : String) : Bool :=
  is_blocked db user1_id user2_id || is_blocked db user2_id user1_id

/-- `database.is_user_banned`: the chat exists and carries the user in its
ban list. -/
def is_user_banned (db : DB) (chat_id user_id : String) : Bool :=
  match get_chat_by_id db chat_id with
  | some c => decide (user_id ∈ c.banned_users)
  | none => false

/-- Result of `database.get_member_role`: the member's role string and the
loosely-typed permission payload (`admin_rights or restrictions`). -/
structure RoleData where
  role : String
  permissions : Option PermVal
deriving DecidableEq, Repr

/-- `database.get_member_role`: owner gets role `"owner"` with payload
`"all"`; otherwise the member record decides (`role` defaulted to
`"member"`, payload is `admin_rights or restrictions`). -/
def get_member_role (db : DB) (chat_id user_id : String) : Option RoleData :=
  match get_chat_by_id db chat_id with
  | none => none
  | some chat =>
    if chat.owner_id = user_id then
      some ⟨"owner", some (.pstr "all")⟩
    else
      match chat.members.find? (fun m => m.user_id = user_id) with
      | some m => some ⟨m.role.getD "member", pyOrPerm m.admin_rights m.restrictions⟩
      | none => none

/-- `default_perms.get(key, dflt)` on the chat's default-permission dict. -/
def lookupBool (d : List (String × Bool)) (k : String) (dflt : Bool) : Bool :=
  match d.lookup k with
  | some b => b
  | none => dflt

/-! ## `backend/permissions.py` — the authorization engine -/

/-- `permissions.check_are_friends`: true iff `user2_id` occurs in
`user1`'s `friends` list (a one-directional check). -/
def check_are_friends (db : DB) (user1_id user2_id : String) : Bool :=
  match get_user_by_id db user1_id with
  | none => false
  | some u => decide (user2_id ∈ u.friends)

/-- `permissions.check_can_message_user`: 403 if blocked in either
direction, else 403 if not friends, else allowed. -/
def check_can_message_user (db : DB) (from_user_id to_user_id : String) :
    Except Err Unit :=
  if is_blocked_by_any db from_user_id to_user_id then
    .error ⟨403, "You cannot message this user"⟩
  else if !check_are_friends db from_user_id to_user_id then
    .error ⟨403, "You can only message friends. Send a friend request first."⟩
  else
    .ok ()

/-- `permissions.check_user_in_chat`: 404 if the chat is absent; for a
channel, 403 unless the actor is a subscriber; otherwise 403 unless the
actor occurs among the member records. -/
def check_user_in_chat (db : DB) (chat_id user_id : String) : Except Err Chat :=
  match get_chat_by_id db chat_id with
  | none => .error ⟨404, "Chat not found"⟩
  | some chat =>
    if chat.chat_type = "channel" then
      if user_id ∈ chat.subscribers then .ok chat
      else .error ⟨403, "You are not subscribed to this channel"⟩
    else
      if user_id ∈ chat.members.map (fun m => m.user_id) then .ok chat
      else .error ⟨403, "You are not a member of this chat"⟩

/-- `permissions.check_is_admin`: owner, or listed in `admins` with the
member-record role; the Python `role_data['role']` on a missing record is a
`TypeError`, modelled as a 500. -/
def check_is_admin (db : DB) (chat_id user_id : String) :
    Except Err (Chat × String) :=
  match get_chat_by_id db chat_id with
  | none => .error ⟨404, "Chat not found"⟩
  | some chat =>
    if chat.owner_id = user_id then .ok (chat, "owner")
    else if user_id ∈ chat.admins then
      match get_member_role db chat_id user_id with
      | some rd => .ok (chat, rd.role)
      | none => .error ⟨500, "TypeError"⟩
    else .error ⟨403, "You need to be an admin to perform this action"⟩

/-- Python truthiness of `role_data and role_data.get('permissions')`. -/
def roleDataPermsTruthy : Option RoleData → Bool
  | none => false
  | some rd => optTruthy rd.permissions

/-- `permissions.check_can_send_message`: membership gate, ban gate; direct
chats always allowed; channels require admin/owner; groups evaluate the
per-member payload when truthy (an explicit `can_send_messages` key
decides), else fall back to the chat default (default `True`). -/
def check_can_send_message (db : DB) (chat_id user_id : String) :
    Except Err Chat :=
  match check_user_in_chat db chat_id user_id with
  | .error e => .error e
  | .ok chat =>
    if is_user_banned db chat_id user_id then
      .error ⟨403, "You are banned from this chat"⟩
    else if chat.chat_type = "direct" then
      .ok chat
    else if chat.chat_type = "channel" then
      match check_is_admin db chat_id user_id with
      | .ok _ => .ok chat
      | .error _ => .error ⟨403, "Only admins can post in this channel"⟩
    else if chat.chat_type = "group" then
      let role_data := get_member_role db chat_id user_id
      if roleDataPermsTruthy role_data then
        match role_data with
        | some rd =>
          match rd.permissions with
          | some (.pdict d) =>
            match d.lookup "can_send_messages" with
            | some v =>
              if v.truthy then .ok chat
              else .error ⟨403, "You are restricted from sending messages"⟩
            | none => .ok chat
          | _ => .ok chat
        | none => .ok chat
      else if !lookupBool chat.default_permissions "can_send_messages" true then
        .error ⟨403, "Sending messages is disabled in this group"⟩
      else .ok chat
    else .ok chat

/-! ## Store mutation helpers (`database_enhanced.update_message`, …) -/

/-- `database.update_message`: partial update of the message with the given
id (a `$set`, here a function on the document); always bumps `updated_at`
to the current time. -/
def update_message (db : DB) (message_id : String) (now : Nat)
    (f : Msg → Msg) : DB :=
  { db with
    messages := db.messages.map
      (fun m => if m.id = message_id then { f m with updated_at := now } else m) }

/-- `db.chats.update_one({'id': chat_id}, …)`: update the chat with the
given id in place. -/
def update_chat (db : DB) (chat_id : String) (f : Chat → Chat) : DB :=
  { db with
    chats := db.chats.map (fun c => if c.id = chat_id then f c else c) }

/-- Mongo `$addToSet` with `$each`: append each element not yet present,
preserving order. -/
def addAllToSet (l new : List String) : List String :=
  new.foldl (fun acc u => if u ∈ acc then acc else acc ++ [u]) l

/-! ## `backend/routes_chat.py` — chat and message routes

Mutating routes are state-passing: they return the response
(`Except Err α`) together with the resulting store.  The socket fan-out a
route performs is returned as an event list where a claim depends on it;
elsewhere the fan-out (and the denormalized `last_message` cache refresh,
which no claim touches) is elided. -/

/-- `GET /chats/{chat_id}` (`get_chat`): 404 when the chat is absent, 403
`"Not a participant of this chat"` when the actor is not in
`participants`, else the chat. -/
def route_get_chat (db : DB) (chat_id user_id : String) : Except Err Chat :=
  match get_chat_by_id db chat_id with
  | none => .error ⟨404, "Chat not found"⟩
  | some chat =>
    if user_id ∈ chat.participants then .ok chat
    else .error ⟨403, "Not a participant of this chat"⟩

/-- `database.get_chat_messages`: non-deleted messages of the chat, newest
first, paginated, then reversed for the response. -/
def get_chat_messages (db : DB) (chat_id : String) (limit skip : Nat) :
    List Msg :=
  let msgs := db.messages.filter
    (fun m => m.chat_id = chat_id && m.deleted = false)
  (((msgs.mergeSort (fun a b => b.created_at ≤ a.created_at)).drop skip).take
    limit).reverse

/-- `GET /chats/{chat_id}/messages` (`get_messages`): same existence and
participant gates as `get_chat`, then the page of messages with the actor's
deleted-for-me messages filtered out. -/
def route_get_messages (db : DB) (chat_id user_id : String)
    (limit skip : Nat) : Except Err (List Msg) :=
  match get_chat_by_id db chat_id with
  | none => .error ⟨404, "Chat not found"⟩
  | some chat =>
    if user_id ∉ chat.participants then
      .error ⟨403, "Not a participant of this chat"⟩
    else
      .ok ((get_chat_messages db chat_id limit skip).filter
        (fun m => user_id ∉ m.deleted_for))

/-- Request body of `POST /chats/{chat_id}/messages`. -/
structure MessageCreate where
  content : String
  message_type : String := "text"
  reply_to : Option String := none
deriving DecidableEq, Repr

/-- `POST /chats/{chat_id}/messages` (`send_message`): existence gate,
participant gate, direct-chat block checks — and then, on every request
that passes them, line 330's `chat.get('chat_type') == ChatType.CHANNEL`
raises `AttributeError`, because `models.ChatType` defines only `DIRECT`
and `GROUP`.  The global exception handler in `server.py` turns the
unhandled exception into a sanitized 500 `"Internal server error"`; the
channel gate, the `reply_to` validation and the message creation further
down the route are unreachable, so no send ever persists a message and the
route never calls `check_can_send_message` either. -/
def route_send_message (db : DB) (chat_id : String) (_md : MessageCreate)
    (user_id _new_id : String) (_now : Nat) : Except Err Msg × DB :=
  match get_chat_by_id db chat_id with
  | none => (.error ⟨404, "Chat not found"⟩, db)
  | some chat =>
    if user_id ∉ chat.participants then
      (.error ⟨403, "Not a participant of this chat"⟩, db)
    else
      let blockErr : Option Err :=
        if chat.chat_type = "direct" then
          match chat.participants.find? (fun p => p ≠ user_id) with
          | some other =>
            let otherBlockedMe :=
              match get_user_by_id db other with
              | some ou => decide (user_id ∈ ou.blocked_users)
              | none => false
            if otherBlockedMe then
              some ⟨403, "You cannot send messages to this user"⟩
            else
              let iBlockedOther :=
                match get_user_by_id db user_id with
                | some cu => decide (other ∈ cu.blocked_users)
                | none => false
              if iBlockedOther then
                some ⟨403, "You have blocked this user. Unblock to send messages."⟩
              else none
          | none => none
        else none
      match blockErr with
      | some e => (.error e, db)
      | none =>
        (.error ⟨500, "Internal server error"⟩, db)

/-- `PUT /messages/{message_id}` (`edit_message`): 404 when absent, 403
unless the actor authored the message, 400 `"Message is too old to edit
(48-hour limit)"` when older than 48 hours, else content replaced and
`edited` set. -/
def route_edit_message (db : DB) (message_id content user_id : String)
    (now : Nat) : Except Err Unit × DB :=
  match get_message_by_id db message_id with
  | none => (.error ⟨404, "Message not found"⟩, db)
  | some m =>
    if m.sender_id ≠ user_id then
      (.error ⟨403, "Can only edit your own messages"⟩, db)
    else if now - m.created_at > 172800 then
      (.error ⟨400, "Message is too old to edit (48-hour limit)"⟩, db)
    else
      (.ok (), update_message db message_id now
        (fun msg => { msg with content := content, edited := true }))

/-- `DELETE /messages/{message_id}` (`delete_message`): for-everyone
requires authorship (in every chat kind) and tombstones the message;
delete-for-me appends the actor to `deleted_for` idempotently. -/
def route_delete_message (db : DB) (message_id : String)
    (for_everyone : Bool) (user_id : String) (now : Nat) :
    Except Err Unit × DB :=
  match get_message_by_id db message_id with
  | none => (.error ⟨404, "Message not found"⟩, db)
  | some m =>
    if for_everyone then
      if m.sender_id ≠ user_id then
        (.error ⟨403, "Can only delete your own messages for everyone"⟩, db)
      else
        (.ok (), update_message db message_id now
          (fun msg => { msg with deleted := true,
                                 content := "This message was deleted" }))
    else
      if user_id ∉ m.deleted_for then
        (.ok (), update_message db message_id now
          (fun msg => { msg with deleted_for := msg.deleted_for ++ [user_id] }))
      else (.ok (), db)

/-! ### Reactions (`add_reaction`, `remove_reaction`, `mark_as_read`) -/

/-- One broadcast of the reaction endpoints: the `'action': 'remove'` or
`'action': 'add'` payload sent to the chat room. -/
inductive REvent where
  | removeEv (emoji user_id : String)
  | addEv (emoji user_id : String)
deriving DecidableEq, Repr

/-- The removal loop of `add_reaction` (lines 524–542): walk the reaction
dict in insertion order, remove the user from the first bucket containing
them, delete that bucket if it became empty, remember the removed emoji,
and stop. -/
def removeUserReaction (user_id : String) :
    List (String × List String) → List (String × List String) × Option String
  | [] => ([], none)
  | (e, us) :: rest =>
    if user_id ∈ us then
      let us' := us.erase user_id
      ((if us'.isEmpty then rest else (e, us') :: rest), some e)
    else
      let r := removeUserReaction user_id rest
      ((e, us) :: r.1, r.2)

/-- Lines 551–555 of `add_reaction`: create the requested bucket if absent
(at the end, as a Python dict does), then append the user if not present. -/
def addUserToBucket (reactions : List (String × List String))
    (emoji user_id : String) : List (String × List String) :=
  let withKey :=
    if (reactions.lookup emoji).isSome then reactions
    else reactions ++ [(emoji, [])]
  withKey.map (fun p =>
    if p.1 = emoji then (p.1, if user_id ∈ p.2 then p.2 else p.2 ++ [user_id])
    else p)

/-- The full state change and broadcast sequence of one `add_reaction`
call on a message's reaction dict: remove-first-bucket (with its `remove`
broadcast), stop there if the request equalled the user's current emoji,
else add to the requested bucket and broadcast `add`. -/
def apply_add_reaction (reactions : List (String × List String))
    (user_id emoji : String) :
    List (String × List String) × List REvent :=
  let user_has_this_emoji :=
    match reactions.lookup emoji with
    | some us => decide (user_id ∈ us)
    | none => false
  let rr := removeUserReaction user_id reactions
  let evs :=
    match rr.2 with
    | some e => [REvent.removeEv e user_id]
    | none => []
  if user_has_this_emoji then (rr.1, evs)
  else (addUserToBucket rr.1 emoji user_id, evs ++ [REvent.addEv emoji user_id])

/-- State change of one `remove_reaction` call: remove the user from the
named bucket if present, deleting the bucket when it empties. -/
def apply_remove_reaction (reactions : List (String × List String))
    (user_id emoji : String) : List (String × List String) :=
  match reactions.lookup emoji with
  | some us =>
    if user_id ∈ us then
      let us' := us.erase user_id
      if us'.isEmpty then reactions.eraseP (fun p => p.1 == emoji)
      else reactions.map (fun p => if p.1 = emoji then (p.1, us') else p)
    else reactions
  | none => reactions

/-- `POST /messages/{message_id}/react` (`add_reaction`): the only gate is
message existence (404); no chat-membership or ban check is made.  Returns
the response, the new store and the broadcasts emitted. -/
def route_add_reaction (db : DB) (message_id user_id emoji : String)
    (now : Nat) : Except Err (List (String × List String)) × DB × List REvent :=
  match get_message_by_id db message_id with
  | none => (.error ⟨404, "Message not found"⟩, db, [])
  | some m =>
    let r := apply_add_reaction m.reactions user_id emoji
    (.ok r.1,
     update_message db message_id now (fun msg => { msg with reactions := r.1 }),
     r.2)

/-- `DELETE /messages/{message_id}/react` (`remove_reaction`): existence
gate only; broadcasts one `remove` payload unconditionally. -/
def route_remove_reaction (db : DB) (message_id user_id emoji : String)
    (now : Nat) : Except Err (List (String × List String)) × DB × List REvent :=
  match get_message_by_id db message_id with
  | none => (.error ⟨404, "Message not found"⟩, db, [])
  | some m =>
    let r := apply_remove_reaction m.reactions user_id emoji
    (.ok r,
     update_message db message_id now (fun msg => { msg with reactions := r }),
     [REvent.removeEv emoji user_id])

/-- `POST /messages/{message_id}/read` (`mark_as_read`): existence gate
only — no chat-membership or ban check; idempotent append to `read_by`,
with a `message_status` broadcast only on the absent→present transition. -/
def route_mark_as_read (db : DB) (message_id user_id : String) (now : Nat) :
    Except Err Unit × DB × List String :=
  match get_message_by_id db message_id with
  | none => (.error ⟨404, "Message not found"⟩, db, [])
  | some m =>
    if user_id ∉ m.read_by then
      (.ok (),
       update_message db message_id now
         (fun msg => { msg with read_by := msg.read_by ++ [user_id],
                                status := "read" }),
       ["message_status"])
    else (.ok (), db, [])

/-! ### Chat management routes -/

/-- Request body of `POST /chats/` (the fields the embedding needs). -/
structure ChatCreate where
  chat_type : String
  participants : List String
deriving DecidableEq, Repr

/-- `POST /chats/` (`create_new_chat`): the creator is appended to
`participants` if absent; a direct chat must then have exactly 2
participants (400 otherwise); an existing direct chat containing all the
participants is returned instead of creating a new one; otherwise the chat
is inserted with `admins = [creator]` — for every chat kind, direct
included.  After the insert, line 90's
`[ChatType.GROUP, ChatType.CHANNEL]` raises `AttributeError`
(`models.ChatType` has no `CHANNEL` member), so the route answers the
sanitized 500 `"Internal server error"` while the new chat stays
persisted; only the dedup path returns the chat. -/
def route_create_new_chat (db : DB) (cd : ChatCreate)
    (current_uid new_id : String) : Except Err Chat × DB :=
  let parts :=
    if current_uid ∈ cd.participants then cd.participants
    else cd.participants ++ [current_uid]
  if cd.chat_type = "direct" ∧ parts.length ≠ 2 then
    (.error ⟨400, "Direct chat must have exactly 2 participants"⟩, db)
  else
    let existing :=
      if cd.chat_type = "direct" then
        db.chats.find? (fun c =>
          c.chat_type = "direct" && parts.all (fun p => p ∈ c.participants))
      else none
    match existing with
    | some c => (.ok c, db)
    | none =>
      let chat : Chat :=
        { id := new_id, chat_type := cd.chat_type, participants := parts,
          admins := [current_uid], created_by := current_uid,
          pinned_messages := [] }
      (.error ⟨500, "Internal server error"⟩,
        { db with chats := db.chats ++ [chat] })

/-- `POST /chats/{chat_id}/participants` (`add_participants`): 404 when
absent, 400 for direct chats, 403 for non-admins; otherwise the user ids
that exist in the store (in collection order) are `$addToSet`-ed into
`participants`. -/
def route_add_participants (db : DB) (chat_id : String)
    (user_ids : List String) (current_uid : String) : Except Err Unit × DB :=
  match get_chat_by_id db chat_id with
  | none => (.error ⟨404, "Chat not found"⟩, db)
  | some chat =>
    if chat.chat_type = "direct" then
      (.error ⟨400, "Cannot add participants to direct chat"⟩, db)
    else if current_uid ∉ chat.admins then
      (.error ⟨403, "Only admins can add participants"⟩, db)
    else
      let valid := (db.users.filter (fun u => u.id ∈ user_ids)).map User.id
      (.ok (), update_chat db chat_id
        (fun c => { c with participants := addAllToSet c.participants valid }))

/-- `DELETE /chats/{chat_id}/participants/{user_id}`
(`remove_participant`): 404 when absent, 400 for direct chats, 403 unless
the actor removes themself or is an admin; `$pull`s the user from both
`participants` and `admins`. -/
def route_remove_participant (db : DB) (chat_id user_id current_uid : String) :
    Except Err Unit × DB :=
  match get_chat_by_id db chat_id with
  | none => (.error ⟨404, "Chat not found"⟩, db)
  | some chat =>
    if chat.chat_type = "direct" then
      (.error ⟨400, "Cannot remove participants from direct chat"⟩, db)
    else if current_uid ≠ user_id ∧ current_uid ∉ chat.admins then
      (.error ⟨403, "Not authorized to remove this participant"⟩, db)
    else
      (.ok (), update_chat db chat_id (fun c =>
        { c with participants := c.participants.filter (fun p => p ≠ user_id),
                 admins := c.admins.filter (fun p => p ≠ user_id) }))

/-- `POST /chats/{chat_id}/admins/{user_id}` (`promote_admin`): 404, 400
for direct chats, 403 for non-admin actors, 400 for non-participant
targets; `$addToSet`s the target into `admins`. -/
def route_promote_admin (db : DB) (chat_id user_id current_uid : String) :
    Except Err Unit × DB :=
  match get_chat_by_id db chat_id with
  | none => (.error ⟨404, "Chat not found"⟩, db)
  | some chat =>
    if chat.chat_type = "direct" then
      (.error ⟨400, "Not applicable for direct chats"⟩, db)
    else if current_uid ∉ chat.admins then
      (.error ⟨403, "Only admins can promote others"⟩, db)
    else if user_id ∉ chat.participants then
      (.error ⟨400, "User is not a participant"⟩, db)
    else
      (.ok (), update_chat db chat_id (fun c =>
        { c with admins := addAllToSet c.admins [user_id] }))

/-- `DELETE /chats/{chat_id}/admins/{user_id}` (`demote_admin`): 404, 400
for direct chats, 403 for non-admin actors, 400 when removing the last
admin (self-demotion only); `$pull`s the target from `admins`. -/
def route_demote_admin (db : DB) (chat_id user_id current_uid : String) :
    Except Err Unit × DB :=
  match get_chat_by_id db chat_id with
  | none => (.error ⟨404, "Chat not found"⟩, db)
  | some chat =>
    if chat.chat_type = "direct" then
      (.error ⟨400, "Not applicable for direct chats"⟩, db)
    else if current_uid ∉ chat.admins then
      (.error ⟨403, "Only admins can demote others"⟩, db)
    else if user_id = current_uid ∧ chat.admins.length = 1 then
      (.error ⟨400, "Cannot remove the last admin"⟩, db)
    else
      (.ok (), update_chat db chat_id (fun c =>
        { c with admins := c.admins.filter (fun p => p ≠ user_id) }))

/-- `PUT /chats/{chat_id}` (`update_chat` route): 404, 400 for direct
chats, 403 for non-admins; of the allowed fields only
`only_admins_can_post` is carried by the embedding (name, description,
avatar and is_public are dropped payload fields no claim reads). -/
def route_update_chat (db : DB) (chat_id : String)
    (new_only_admins : Option Bool) (current_uid : String) :
    Except Err Unit × DB :=
  match get_chat_by_id db chat_id with
  | none => (.error ⟨404, "Chat not found"⟩, db)
  | some chat =>
    if chat.chat_type = "direct" then
      (.error ⟨400, "Cannot update direct chat info"⟩, db)
    else if current_uid ∉ chat.admins then
      (.error ⟨403, "Only admins can update chat info"⟩, db)
    else
      (.ok (), update_chat db chat_id (fun c =>
        { c with only_admins_can_post :=
            new_only_admins.getD c.only_admins_can_post }))

/-! ## `backend/socket_manager.py` — realtime session registry

The registry's owned state is the three process-local maps; the Socket.IO
room bookkeeping (`enter_room` / `leave_room`) lives inside the transport
library and is not part of this state.  Each handler returns the new
registry together with the names of the events it emitted.  Payload fields
read with `data.get(...)` are `Option String`; Python treats both a missing
key and an empty string as falsy. -/

/-- The three in-memory maps of `SocketManager`. -/
structure Registry where
  user_connections : List (String × List String)
  chat_presence : List (String × List String)
  typing_users : List (String × List String)
deriving DecidableEq, Repr

/-- Python falsiness of an optional string payload field. -/
def strFalsy : Option String → Bool
  | none => true
  | some s => s.isEmpty

/-- The authentication lookup done by `join_room` and the socket
`send_message`: the user id whose connection set contains this sid. -/
def findUserBySid (r : Registry) (sid : String) : Option String :=
  (r.user_connections.find? (fun p => sid ∈ p.2)).map Prod.fst

/-- Insert `v` into the set stored under `k`, creating the entry if absent
(`if k not in m: m[k] = set()` followed by `m[k].add(v)`). -/
def addToSetMap (m : List (String × List String)) (k v : String) :
    List (String × List String) :=
  if (m.lookup k).isSome then
    m.map (fun p => if p.1 = k then (p.1, if v ∈ p.2 then p.2 else p.2 ++ [v]) else p)
  else m ++ [(k, [v])]

/-- `set.discard(v)` on the set stored under `k` (no-op if the key or the
value is absent). -/
def discardFromSetMap (m : List (String × List String)) (k v : String) :
    List (String × List String) :=
  m.map (fun p => if p.1 = k then (p.1, p.2.filter (fun x => x ≠ v)) else p)

/-- The `join_room` handler: missing room → error; sid not in any
connection set → `'User not authenticated'` error; otherwise the
connection enters the transport room — the registry maps are untouched on
every path. -/
def sock_join_room (r : Registry) (sid : String) (room_id : Option String) :
    Registry × List String :=
  if strFalsy room_id then (r, ["error: Missing room_id"])
  else
    match findUserBySid r sid with
    | none => (r, ["error: User not authenticated"])
    | some _ => (r, ["room_joined", "user_joined_room"])

/-- The socket-level `send_message` handler: missing fields → error;
unauthenticated sid → `'User not authenticated'` error; unknown user →
error; else a `new_message` fan-out.  The registry maps are untouched on
every path. -/
def sock_send_message (db : DB) (r : Registry) (sid : String)
    (room_id content : Option String) : Registry × List String :=
  if strFalsy room_id || strFalsy content then
    (r, ["error: Missing room_id or content"])
  else
    match findUserBySid r sid with
    | none => (r, ["error: User not authenticated"])
    | some uid =>
      match get_user_by_id db uid with
      | none => (r, ["error: User not found"])
      | some _ => (r, ["new_message"])

/-- The `join_chat` handler: if both `chat_id` and `user_id` are present in
the client payload the connection enters the room and the client-supplied
user id is added to the chat's presence set — no authentication check is
made at any point. -/
def sock_join_chat (r : Registry) (_sid : String)
    (chat_id user_id : Option String) : Registry × List String :=
  if strFalsy chat_id || strFalsy user_id then (r, [])
  else
    match chat_id, user_id with
    | some cid, some uid =>
      ({ r with chat_presence := addToSetMap r.chat_presence cid uid },
       ["user_joined"])
    | _, _ => (r, [])

/-- The `typing` handler: with both fields present, add or discard the
client-supplied user id in the chat's typing set and fan out — again with
no authentication check. -/
def sock_typing (r : Registry) (_sid : String)
    (chat_id user_id : Option String) (is_typing : Bool) :
    Registry × List String :=
  if strFalsy chat_id || strFalsy user_id then (r, [])
  else
    match chat_id, user_id with
    | some cid, some uid =>
      let base :=
        if (r.typing_users.lookup cid).isSome then r.typing_users
        else r.typing_users ++ [(cid, [])]
      let tu :=
        if is_typing then addToSetMap base cid uid
        else discardFromSetMap base cid uid
      ({ r with typing_users := tu }, ["user_typing"])
    | _, _ => (r, [])

/-! ## Operation sequences and invariants -/

/-- One call to a reaction endpoint on a single message's reaction dict. -/
inductive ReactOp where
  | addCall (user_id emoji : String)
  | removeCall (user_id emoji : String)
deriving DecidableEq, Repr

/-- State change of one reaction call. -/
def applyReactOp (reactions : List (String × List String)) :
    ReactOp → List (String × List String)
  | .addCall uid emoji => (apply_add_reaction reactions uid emoji).1
  | .removeCall uid emoji => apply_remove_reaction reactions uid emoji

/-- The reaction dict of a message after a sequence of reaction calls,
starting from the empty dict a fresh message gets. -/
def runReactOps (ops : List ReactOp) : List (String × List String) :=
  ops.foldl applyReactOp []

/-- Number of emoji buckets whose reactor list contains `uid`. -/
def bucketCount (uid : String) (rs : List (String × List String)) : Nat :=
  rs.countP (fun p => decide (uid ∈ p.2))

/-- Well-formedness of a reaction dict as the store reaches it: emoji keys
are distinct (it is a dict), no reactor is duplicated inside a bucket, and
no reactor occurs in two buckets. -/
structure RWF (rs : List (String × List String)) : Prop where
  keys_nodup : (rs.map Prod.fst).Nodup
  buckets_nodup : ∀ p ∈ rs, p.2.Nodup
  at_most_one : ∀ uid, bucketCount uid rs ≤ 1

/-- One chat-collection-mutating route call. -/
inductive ChatOp where
  | create (cd : ChatCreate) (current_uid new_id : String)
  | addParts (chat_id : String) (user_ids : List String) (current_uid : String)
  | removePart (chat_id user_id current_uid : String)
  | promote (chat_id user_id current_uid : String)
  | demote (chat_id user_id current_uid : String)
  | updateInfo (chat_id : String) (v : Option Bool) (current_uid : String)
deriving DecidableEq, Repr

/-- The store after one chat-mutating route call (response discarded). -/
def applyChatOp (db : DB) : ChatOp → DB
  | .create cd cu nid => (route_create_new_chat db cd cu nid).2
  | .addParts cid us cu => (route_add_participants db cid us cu).2
  | .removePart cid uid cu => (route_remove_participant db cid uid cu).2
  | .promote cid uid cu => (route_promote_admin db cid uid cu).2
  | .demote cid uid cu => (route_demote_admin db cid uid cu).2
  | .updateInfo cid v cu => (route_update_chat db cid v cu).2

/-- A freshly generated chat id (`uuid4`) does not collide with an
existing chat document. -/
def opFresh (db : DB) : ChatOp → Bool
  | .create _ _ nid => db.chats.all (fun c => c.id ≠ nid)
  | _ => true

/-- Every `create` along the run uses a fresh id. -/
def freshRun : DB → List ChatOp → Bool
  | _, [] => true
  | db, op :: rest => opFresh db op && freshRun (applyChatOp db op) rest

/-- The store after a sequence of chat-mutating route calls. -/
def runChatOps (db : DB) (ops : List ChatOp) : DB :=
  ops.foldl applyChatOp db

/-- The direct-chat shape every reachable store satisfies: chat ids are
distinct, and every direct chat has exactly two participants and exactly
its creator in the `admins` list. -/
def DirectInv (db : DB) : Prop :=
  (db.chats.map Chat.id).Nodup ∧
  ∀ c ∈ db.chats, c.chat_type = "direct" →
    c.participants.length = 2 ∧ c.admins = [c.created_by]

/-! ## Concrete stores for counterexamples and witnesses -/

/-- The empty store. -/
def dbEmpty : DB := {}

/-- The empty session registry. -/
def regEmpty : Registry := ⟨[], [], []⟩

/-- A store with one group chat whose participants are `a` and `b`;
`x` is a stranger to it. -/
def dbGate : DB :=
  { chats := [{ id := "c", chat_type := "group",
                participants := ["a", "b"],
                members := [{ user_id := "a" }, { user_id := "b" }] }] }

/-- Group chat `g` owned by `o` with plain member `u` and default
permissions forbidding member posting. -/
def dbGroupNoSend : DB :=
  { users := [{ id := "o" }, { id := "u" }],
    chats := [{ id := "g", chat_type := "group",
                participants := ["o", "u"], admins := ["o"],
                created_by := "o", owner_id := "o",
                members := [{ user_id := "o", role := some "owner" },
                            { user_id := "u", role := some "member" }],
                default_permissions := [("can_send_messages", false)] }] }

/-- `dbGroupNoSend` after granting `u` the explicit per-identity
`can_send_messages = true` override. -/
def dbGroupOverride : DB :=
  { users := [{ id := "o" }, { id := "u" }],
    chats := [{ id := "g", chat_type := "group",
                participants := ["o", "u"], admins := ["o"],
                created_by := "o", owner_id := "o",
                members := [{ user_id := "o", role := some "owner" },
                            { user_id := "u", role := some "member",
                              restrictions :=
                                some (.pdict [("can_send_messages", .rbool true)]) }],
                default_permissions := [("can_send_messages", false)] }] }

/-- A channel whose admin `adm` holds the explicit `can_delete_messages`
permission, with a message written by the owner `o`. -/
def dbChannelDel : DB :=
  { users := [{ id := "o" }, { id := "adm" }],
    chats := [{ id := "ch", chat_type := "channel",
                participants := ["o", "adm"], admins := ["adm"],
                created_by := "o", owner_id := "o",
                members := [{ user_id := "adm", role := some "admin",
                              admin_rights :=
                                some (.pdict
                                  [("permissions", .rlist ["can_delete_messages"])]) }],
                subscribers := ["o", "adm"] }],
    messages := [{ id := "m1", chat_id := "ch", sender_id := "o",
                   content := "hello", created_at := 0 }] }

/-- A chat `c` of `a` and `b` with one message by `a`; `x` is not a
participant. -/
def dbMsg : DB :=
  { users := [{ id := "a" }, { id := "b" }, { id := "x" }],
    chats := [{ id := "c", chat_type := "group",
                participants := ["a", "b"],
                members := [{ user_id := "a" }, { user_id := "b" }] }],
    messages := [{ id := "m1", chat_id := "c", sender_id := "a",
                   content := "hello", created_at := 0 }] }

/-- A one-directional friendship: `b` is in `a`'s friends list but `a` is
not in `b`'s; nobody blocks anybody. -/
def dbOneWayFriends : DB :=
  { users := [{ id := "a", friends := ["b"] }, { id := "b" }] }

/-- A chat used by witnesses: direct chat of `a` and `b`. -/
def dbDirect : DB :=
  { chats := [{ id := "d", chat_type := "direct", participants := ["a", "b"],
                admins := ["a"], created_by := "a" }] }

/-- Two users whose friends lists are symmetric, as the friend-accept flow
writes them. -/
def dbMutualFriends : DB :=
  { users := [{ id := "a", friends := ["b"] }, { id := "b", friends := ["a"] }] }

/-! ## Lemmas about the reaction dictionary (for claims C4 and C9) -/

theorem bucketCount_nil (uid : String) : bucketCount uid [] = 0 := rfl

theorem bucketCount_cons (uid e : String) (us : List String)
    (rest : List (String × List String)) :
    bucketCount uid ((e, us) :: rest) =
      bucketCount uid rest + (if uid ∈ us then 1 else 0) := by
  simp [bucketCount, List.countP_cons]

theorem bucketCount_eq_zero {uid : String}
    {rs : List (String × List String)} :
    bucketCount uid rs = 0 ↔ ∀ p ∈ rs, uid ∉ p.2 := by
  simp [bucketCount, List.countP_eq_zero]

/-- A generic association-list fact: `lookup` succeeds iff the key occurs. -/
theorem lookup_isSome_iff {β : Type} (k : String) (rs : List (String × β)) :
    (rs.lookup k).isSome ↔ k ∈ rs.map Prod.fst := by
  induction rs with
  | nil => simp [List.lookup]
  | cons p rest ih =>
    obtain ⟨e, us⟩ := p
    by_cases h : k = e
    · subst h; simp [List.lookup]
    · have hb : (k == e) = false := beq_eq_false_iff_ne.mpr h
      simp [List.lookup, hb, h, ih]

/-- A generic association-list fact: `lookup` returns a member entry. -/
theorem lookup_mem {β : Type} {k : String} {v : β} {rs : List (String × β)}
    (h : rs.lookup k = some v) : (k, v) ∈ rs := by
  induction rs with
  | nil => simp [List.lookup] at h
  | cons p rest ih =>
    obtain ⟨e, us⟩ := p
    by_cases he : k = e
    · subst he
      simp [List.lookup] at h
      simp [h]
    · have hb : (k == e) = false := beq_eq_false_iff_ne.mpr he
      simp only [List.lookup, hb] at h
      exact List.mem_cons_of_mem _ (ih h)

/-- With distinct keys, `lookup` at a member entry's key returns its value. -/
theorem lookup_eq_of_mem_nodup {β : Type} {rs : List (String × β)}
    {p : String × β} (hk : (rs.map Prod.fst).Nodup) (hp : p ∈ rs) :
    rs.lookup p.1 = some p.2 := by
  induction rs with
  | nil => cases hp
  | cons q rest ih =>
    obtain ⟨e, us⟩ := q
    rw [List.map_cons] at hk
    rcases List.mem_cons.mp hp with h | h
    · subst h
      simp [List.lookup]
    · have hne : p.1 ≠ e := by
        intro heq
        have hmem : p.1 ∈ rest.map Prod.fst := List.mem_map_of_mem Prod.fst h
        rw [heq] at hmem
        exact (List.nodup_cons.mp hk).1 hmem
      have hb : (p.1 == e) = false := beq_eq_false_iff_ne.mpr hne
      simp only [List.lookup, hb]
      exact ih (List.nodup_cons.mp hk).2 h

theorem rur_of_count_zero {uid : String} {rs : List (String × List String)}
    (h : bucketCount uid rs = 0) : removeUserReaction uid rs = (rs, none) := by
  induction rs with
  | nil => rfl
  | cons p rest ih =>
    obtain ⟨e, us⟩ := p
    rw [bucketCount_cons] at h
    have h1 : uid ∉ us := by
      intro hm
      simp [hm] at h
    have h2 : bucketCount uid rest = 0 := by
      simp [h1] at h
      exact h
    simp [removeUserReaction, h1, ih h2]

theorem rur_count_self {uid : String} {rs : List (String × List String)}
    (hb : ∀ p ∈ rs, p.2.Nodup) (h1 : bucketCount uid rs ≤ 1) :
    bucketCount uid (removeUserReaction uid rs).1 = 0 := by
  induction rs with
  | nil => rfl
  | cons p rest ih =>
    obtain ⟨e, us⟩ := p
    rw [bucketCount_cons] at h1
    by_cases hm : uid ∈ us
    · have husn : us.Nodup := hb (e, us) (List.mem_cons_self _ _)
      have hrest : bucketCount uid rest = 0 := by
        simp [hm] at h1
        omega
      have hne : uid ∉ us.erase uid := husn.not_mem_erase
      simp only [removeUserReaction, if_pos hm]
      split
      · exact hrest
      · rw [bucketCount_cons]
        simp [hne, hrest]
    · have h2 : bucketCount uid rest ≤ 1 := by
        simp [hm] at h1
        exact h1
      simp only [removeUserReaction, if_neg hm]
      rw [bucketCount_cons]
      simp [hm]
      exact ih (fun q hq => hb q (List.mem_cons_of_mem _ hq)) h2

theorem rur_count_mono (uid v : String) (rs : List (String × List String)) :
    bucketCount v (removeUserReaction uid rs).1 ≤ bucketCount v rs := by
  induction rs with
  | nil => simp [removeUserReaction]
  | cons p rest ih =>
    obtain ⟨e, us⟩ := p
    by_cases hm : uid ∈ us
    · simp only [removeUserReaction, if_pos hm]
      split
      · rw [bucketCount_cons]
        omega
      · rw [bucketCount_cons, bucketCount_cons]
        have hle : (if v ∈ us.erase uid then 1 else 0) ≤
            (if v ∈ us then 1 else 0) := by
          by_cases hv : v ∈ us.erase uid
          · simp [hv, List.mem_of_mem_erase hv]
          · simp [hv]
        omega
    · simp only [removeUserReaction, if_neg hm]
      rw [bucketCount_cons, bucketCount_cons]
      omega

theorem rur_keys_sublist (uid : String) (rs : List (String × List String)) :
    ((removeUserReaction uid rs).1.map Prod.fst).Sublist (rs.map Prod.fst) := by
  induction rs with
  | nil => simp [removeUserReaction]
  | cons p rest ih =>
    obtain ⟨e, us⟩ := p
    by_cases hm : uid ∈ us
    · simp only [removeUserReaction, if_pos hm]
      split
      · simp
      · simp
    · simp only [removeUserReaction, if_neg hm]
      simpa using ih.cons₂ e

theorem rur_bucket_src {uid : String} {rs : List (String × List String)} :
    ∀ p ∈ (removeUserReaction uid rs).1,
      ∃ q ∈ rs, p.1 = q.1 ∧ (p.2 = q.2 ∨ p.2 = q.2.erase uid) := by
  induction rs with
  | nil => simp [removeUserReaction]
  | cons hd rest ih =>
    obtain ⟨e, us⟩ := hd
    by_cases hm : uid ∈ us
    · simp only [removeUserReaction, if_pos hm]
      split
      · intro p hp
        obtain ⟨q, hq, h1, h2⟩ := (by exact fun p hp => ⟨p, hp, rfl, Or.inl rfl⟩ :
          ∀ p ∈ rest, ∃ q ∈ rest, p.1 = q.1 ∧ (p.2 = q.2 ∨ p.2 = q.2.erase uid)) p hp
        exact ⟨q, List.mem_cons_of_mem _ hq, h1, h2⟩
      · intro p hp
        rcases List.mem_cons.mp hp with h | h
        · subst h
          exact ⟨(e, us), List.mem_cons_self _ _, rfl, Or.inr rfl⟩
        · exact ⟨p, List.mem_cons_of_mem _ h, rfl, Or.inl rfl⟩
    · simp only [removeUserReaction, if_neg hm]
      intro p hp
      rcases List.mem_cons.mp hp with h | h
      · subst h
        exact ⟨(e, us), List.mem_cons_self _ _, rfl, Or.inl rfl⟩
      · obtain ⟨q, hq, h1, h2⟩ := ih p h
        exact ⟨q, List.mem_cons_of_mem _ hq, h1, h2⟩

theorem addBucket_keys (rs : List (String × List String)) (emoji uid : String) :
    (addUserToBucket rs emoji uid).map Prod.fst =
      if (rs.lookup emoji).isSome then rs.map Prod.fst
      else rs.map Prod.fst ++ [emoji] := by
  unfold addUserToBucket
  split
  · rw [List.map_map]
    exact List.map_congr_left (fun p _ => by dsimp; split <;> rfl)
  · rw [List.map_map, List.map_append]
    congr 1
    · exact List.map_congr_left (fun p _ => by dsimp; split <;> rfl)
    · simp

theorem addBucket_keys_nodup (rs : List (String × List String))
    (emoji uid : String) (hk : (rs.map Prod.fst).Nodup) :
    ((addUserToBucket rs emoji uid).map Prod.fst).Nodup := by
  rw [addBucket_keys]
  split
  · exact hk
  case isFalse hlk =>
    have hmem : emoji ∉ rs.map Prod.fst := by
      intro hm
      exact hlk ((lookup_isSome_iff emoji rs).mpr hm)
    rw [List.nodup_append]
    refine ⟨hk, List.nodup_singleton _, ?_⟩
    intro a ha hae
    simp only [List.mem_singleton] at hae
    exact hmem (hae ▸ ha)


theorem addBucket_buckets_nodup (rs : List (String × List String))
    (emoji uid : String) (hb : ∀ p ∈ rs, p.2.Nodup)
    (h0 : bucketCount uid rs = 0) :
    ∀ p ∈ addUserToBucket rs emoji uid, p.2.Nodup := by
  have h0' := bucketCount_eq_zero.mp h0
  have hwk : ∀ q ∈ (if (rs.lookup emoji).isSome then rs
      else rs ++ [(emoji, ([] : List String))]), q.2.Nodup ∧ uid ∉ q.2 := by
    intro q hq
    split at hq
    · exact ⟨hb q hq, h0' q hq⟩
    · rcases List.mem_append.mp hq with h | h
      · exact ⟨hb q h, h0' q h⟩
      · simp only [List.mem_singleton] at h
        subst h
        exact ⟨List.nodup_nil, by simp⟩
  intro p hp
  unfold addUserToBucket at hp
  rcases List.mem_map.mp hp with ⟨q, hq, hfq⟩
  obtain ⟨hqn, hqu⟩ := hwk q hq
  subst hfq
  by_cases hqe : q.1 = emoji
  · have happ : (q.2 ++ [uid]).Nodup := by
      rw [List.nodup_append]
      refine ⟨hqn, List.nodup_singleton uid, ?_⟩
      intro a ha hau
      simp only [List.mem_singleton] at hau
      exact hqu (hau ▸ ha)
    simpa [hqe, hqu] using happ
  · simpa [hqe] using hqn

theorem addBucket_count_self (rs : List (String × List String))
    (emoji uid : String) (hk : (rs.map Prod.fst).Nodup)
    (h0 : bucketCount uid rs = 0) :
    bucketCount uid (addUserToBucket rs emoji uid) ≤ 1 := by
  have h0' := bucketCount_eq_zero.mp h0
  unfold addUserToBucket
  by_cases hlk : (rs.lookup emoji).isSome
  · rw [if_pos hlk]
    rw [bucketCount, List.countP_map]
    have hcongr : List.countP
        ((fun p => decide (uid ∈ p.2)) ∘
          (fun p => if p.1 = emoji then
            (p.1, if uid ∈ p.2 then p.2 else p.2 ++ [uid]) else p)) rs =
        List.countP (fun p => decide (p.1 = emoji)) rs := by
      apply List.countP_congr
      intro p hp
      have hpu : uid ∉ p.2 := h0' p hp
      by_cases hpe : p.1 = emoji
      · simp [hpe, hpu]
      · simp [hpe, hpu]
    rw [hcongr]
    have hcnt : List.countP (fun p => decide (p.1 = emoji)) rs =
        List.count emoji (rs.map Prod.fst) := by
      rw [List.count_eq_countP, List.countP_map]
      apply List.countP_congr
      intro p _
      simp [beq_eq_decide]
    rw [hcnt]
    exact List.nodup_iff_count_le_one.mp hk emoji
  · rw [if_neg hlk]
    have hnone : ∀ p ∈ rs, p.1 ≠ emoji := by
      intro p hp hpe
      apply hlk
      rw [lookup_isSome_iff]
      exact hpe ▸ List.mem_map_of_mem Prod.fst hp
    rw [bucketCount, List.map_append, List.countP_append, List.countP_map]
    have hz : List.countP
        ((fun p => decide (uid ∈ p.2)) ∘
          (fun p => if p.1 = emoji then
            (p.1, if uid ∈ p.2 then p.2 else p.2 ++ [uid]) else p)) rs = 0 := by
      rw [List.countP_eq_zero]
      intro p hp
      simp [hnone p hp, h0' p hp]
    rw [hz]
    simp

theorem addBucket_count_other (rs : List (String × List String))
    (emoji uid v : String) (hv : v ≠ uid) (h0 : bucketCount uid rs = 0) :
    bucketCount v (addUserToBucket rs emoji uid) = bucketCount v rs := by
  have h0' := bucketCount_eq_zero.mp h0
  unfold addUserToBucket
  have hsame : ∀ p ∈ rs, (decide (v ∈ ((fun p =>
      if p.1 = emoji then (p.1, if uid ∈ p.2 then p.2 else p.2 ++ [uid]) else p)
        p).2) : Bool) = decide (v ∈ p.2) := by
    intro p hp
    by_cases hpe : p.1 = emoji
    · simp only [hpe, if_true, if_pos]
      by_cases hpu : uid ∈ p.2
      · simp [hpu]
      · simp [hpu, List.mem_append, hv]
    · simp [hpe]
  by_cases hlk : (rs.lookup emoji).isSome
  · rw [if_pos hlk, bucketCount, List.countP_map]
    rw [bucketCount]
    exact List.countP_congr (fun p hp => by rw [Function.comp_apply, hsame p hp])
  · rw [if_neg hlk, bucketCount, List.map_append, List.countP_append,
      List.countP_map, List.countP_map]
    have hlast : List.countP
        ((fun p => decide (v ∈ p.2)) ∘ fun p => if p.1 = emoji then
          (p.1, if uid ∈ p.2 then p.2 else p.2 ++ [uid]) else p)
        [(emoji, ([] : List String))] = 0 := by
      simp [hv]
    rw [hlast]
    rw [bucketCount]
    have hc : List.countP
        ((fun p => decide (v ∈ p.2)) ∘ fun p => if p.1 = emoji then
          (p.1, if uid ∈ p.2 then p.2 else p.2 ++ [uid]) else p) rs =
        List.countP (fun p => decide (v ∈ p.2)) rs :=
      List.countP_congr (fun p hp => by rw [Function.comp_apply, hsame p hp])
    omega

theorem rwf_sublist {rs rs' : List (String × List String)}
    (hsub : rs'.Sublist rs) (h : RWF rs) : RWF rs' := by
  refine ⟨?_, ?_, ?_⟩
  · exact (hsub.map Prod.fst).nodup h.keys_nodup
  · intro p hp
    exact h.buckets_nodup p (hsub.subset hp)
  · intro v
    exact le_trans (hsub.countP_le _) (h.at_most_one v)

theorem rwf_rur (uid : String) {rs : List (String × List String)}
    (h : RWF rs) : RWF (removeUserReaction uid rs).1 := by
  refine ⟨?_, ?_, ?_⟩
  · exact (rur_keys_sublist uid rs).nodup h.keys_nodup
  · intro p hp
    obtain ⟨q, hq, _, h2⟩ := rur_bucket_src p hp
    rcases h2 with h2 | h2
    · rw [h2]; exact h.buckets_nodup q hq
    · rw [h2]; exact (h.buckets_nodup q hq).erase uid
  · intro v
    exact le_trans (rur_count_mono uid v rs) (h.at_most_one v)

theorem apply_add_fst (rs : List (String × List String)) (uid emoji : String) :
    (apply_add_reaction rs uid emoji).1 = (removeUserReaction uid rs).1 ∨
    (apply_add_reaction rs uid emoji).1 =
      addUserToBucket (removeUserReaction uid rs).1 emoji uid := by
  unfold apply_add_reaction
  cases hlk : rs.lookup emoji with
  | none =>
    right
    simp
  | some us =>
    by_cases hm : uid ∈ us
    · left
      simp [hm]
    · right
      simp [hm]

theorem rwf_add (rs : List (String × List String)) (uid emoji : String)
    (h : RWF rs) : RWF (apply_add_reaction rs uid emoji).1 := by
  have hr := rwf_rur uid h
  have h0 : bucketCount uid (removeUserReaction uid rs).1 = 0 :=
    rur_count_self h.buckets_nodup (h.at_most_one uid)
  rcases apply_add_fst rs uid emoji with he | he <;> rw [he]
  · exact hr
  · refine ⟨addBucket_keys_nodup _ _ _ hr.keys_nodup,
      addBucket_buckets_nodup _ _ _ hr.buckets_nodup h0, ?_⟩
    intro v
    by_cases hv : v = uid
    · subst hv
      exact addBucket_count_self _ _ _ hr.keys_nodup h0
    · rw [addBucket_count_other _ _ _ _ hv h0]
      exact hr.at_most_one v

theorem rwf_remove (rs : List (String × List String)) (uid emoji : String)
    (h : RWF rs) : RWF (apply_remove_reaction rs uid emoji) := by
  unfold apply_remove_reaction
  cases hlk : rs.lookup emoji with
  | none => exact h
  | some us =>
    dsimp only
    by_cases hm : uid ∈ us
    · rw [if_pos hm]
      have husn : us.Nodup := h.buckets_nodup (emoji, us) (lookup_mem hlk)
      split
      · exact rwf_sublist (List.eraseP_sublist rs) h
      · refine ⟨?_, ?_, ?_⟩
        · have : (rs.map (fun p => if p.1 = emoji then
              (p.1, us.erase uid) else p)).map Prod.fst = rs.map Prod.fst := by
            rw [List.map_map]
            exact List.map_congr_left (fun p _ => by dsimp; split <;> rfl)
          rw [this]
          exact h.keys_nodup
        · intro p hp
          rcases List.mem_map.mp hp with ⟨q, hq, hfq⟩
          subst hfq
          by_cases hqe : q.1 = emoji
          · simpa [hqe] using husn.erase uid
          · simpa [hqe] using h.buckets_nodup q hq
        · intro v
          have hb := h.at_most_one v
          simp only [bucketCount] at hb ⊢
          rw [List.countP_map]
          refine le_trans (List.countP_mono_left (q := fun p => decide (v ∈ p.2))
            ?_) hb
          intro p hp hvp
          rw [Function.comp_apply] at hvp
          by_cases hqe : p.1 = emoji
          · have hp2 : p.2 = us := by
              have := lookup_eq_of_mem_nodup h.keys_nodup hp
              rw [hqe, hlk] at this
              exact (Option.some.injEq _ _ ▸ this).symm ▸ rfl
            simp only [hqe, if_true, if_pos] at hvp
            simp only [decide_eq_true_eq] at hvp ⊢
            rw [hp2]
            exact List.mem_of_mem_erase hvp
          · simpa [hqe] using hvp
    · rw [if_neg hm]
      exact h

theorem rwf_empty : RWF [] :=
  ⟨List.nodup_nil, by simp, fun uid => by simp [bucketCount]⟩

theorem rwf_applyReactOp (rs : List (String × List String)) (op : ReactOp)
    (h : RWF rs) : RWF (applyReactOp rs op) := by
  cases op with
  | addCall uid emoji => exact rwf_add rs uid emoji h
  | removeCall uid emoji => exact rwf_remove rs uid emoji h

theorem rwf_foldl (ops : List ReactOp) :
    ∀ rs, RWF rs → RWF (ops.foldl applyReactOp rs) := by
  induction ops with
  | nil => exact fun rs h => h
  | cons op rest ih =>
    intro rs h
    exact ih _ (rwf_applyReactOp rs op h)

theorem rwf_runReactOps (ops : List ReactOp) : RWF (runReactOps ops) :=
  rwf_foldl ops [] rwf_empty

theorem lookup_uid_unique {uid : String} {rs : List (String × List String)} :
    ∀ {e1 e2 : String} {us1 us2 : List String},
    bucketCount uid rs ≤ 1 →
    rs.lookup e1 = some us1 → uid ∈ us1 →
    rs.lookup e2 = some us2 → uid ∈ us2 → e1 = e2 := by
  induction rs with
  | nil =>
    intro e1 e2 us1 us2 _ hl1 _ _ _
    simp [List.lookup] at hl1
  | cons p rest ih =>
    obtain ⟨k, vs⟩ := p
    intro e1 e2 us1 us2 h1 hl1 hm1 hl2 hm2
    rw [bucketCount_cons] at h1
    by_cases hvs : uid ∈ vs
    · have hrest : bucketCount uid rest = 0 := by
        rw [if_pos hvs] at h1
        omega
      have h0' := bucketCount_eq_zero.mp hrest
      have he1 : e1 = k := by
        by_contra hne
        have hb : (e1 == k) = false := beq_eq_false_iff_ne.mpr hne
        simp only [List.lookup, hb] at hl1
        exact absurd hm1 (h0' (e1, us1) (lookup_mem hl1))
      have he2 : e2 = k := by
        by_contra hne
        have hb : (e2 == k) = false := beq_eq_false_iff_ne.mpr hne
        simp only [List.lookup, hb] at hl2
        exact absurd hm2 (h0' (e2, us2) (lookup_mem hl2))
      rw [he1, he2]
    · have h1' : bucketCount uid rest ≤ 1 := by
        rw [if_neg hvs] at h1
        omega
      have he1 : e1 ≠ k := by
        intro hk
        subst hk
        simp only [List.lookup, beq_self_eq_true] at hl1
        rw [Option.some_inj] at hl1
        subst hl1
        exact hvs hm1
      have he2 : e2 ≠ k := by
        intro hk
        subst hk
        simp only [List.lookup, beq_self_eq_true] at hl2
        rw [Option.some_inj] at hl2
        subst hl2
        exact hvs hm2
      have hb1 : (e1 == k) = false := beq_eq_false_iff_ne.mpr he1
      have hb2 : (e2 == k) = false := beq_eq_false_iff_ne.mpr he2
      simp only [List.lookup, hb1] at hl1
      simp only [List.lookup, hb2] at hl2
      exact ih h1' hl1 hm1 hl2 hm2

theorem rur_snd_eq {uid : String} {rs : List (String × List String)} :
    ∀ {emoji : String} {us : List String},
    bucketCount uid rs ≤ 1 →
    rs.lookup emoji = some us → uid ∈ us →
    (removeUserReaction uid rs).2 = some emoji := by
  induction rs with
  | nil =>
    intro emoji us _ hl _
    simp [List.lookup] at hl
  | cons p rest ih =>
    obtain ⟨k, vs⟩ := p
    intro emoji us h1 hl hm
    rw [bucketCount_cons] at h1
    by_cases hvs : uid ∈ vs
    · have hrest : bucketCount uid rest = 0 := by
        rw [if_pos hvs] at h1
        omega
      have h0' := bucketCount_eq_zero.mp hrest
      have hke : emoji = k := by
        by_contra hne
        have hb : (emoji == k) = false := beq_eq_false_iff_ne.mpr hne
        simp only [List.lookup, hb] at hl
        exact absurd hm (h0' (emoji, us) (lookup_mem hl))
      simp [removeUserReaction, hvs, hke]
    · have h1' : bucketCount uid rest ≤ 1 := by
        rw [if_neg hvs] at h1
        omega
      have hne : emoji ≠ k := by
        intro hk
        subst hk
        simp only [List.lookup, beq_self_eq_true] at hl
        rw [Option.some_inj] at hl
        subst hl
        exact hvs hm
      have hb : (emoji == k) = false := beq_eq_false_iff_ne.mpr hne
      simp only [List.lookup, hb] at hl
      simp only [removeUserReaction, if_neg hvs]
      exact ih h1' hl hm

theorem apply_add_events_toggle {rs : List (String × List String)}
    {uid emoji : String} {us : List String}
    (h1 : bucketCount uid rs ≤ 1)
    (hl : rs.lookup emoji = some us) (hm : uid ∈ us) :
    (apply_add_reaction rs uid emoji).2 = [REvent.removeEv emoji uid] := by
  have hsnd := rur_snd_eq h1 hl hm
  simp [apply_add_reaction, hl, hm, hsnd]

theorem apply_add_events_fresh {rs : List (String × List String)}
    {uid emoji : String} (h0 : bucketCount uid rs = 0) :
    (apply_add_reaction rs uid emoji).2 = [REvent.addEv emoji uid] := by
  have hr := rur_of_count_zero h0
  cases hlk : rs.lookup emoji with
  | none => simp [apply_add_reaction, hlk, hr]
  | some us =>
    have husr : uid ∉ us :=
      bucketCount_eq_zero.mp h0 (emoji, us) (lookup_mem hlk)
    simp [apply_add_reaction, hlk, husr, hr]

theorem apply_add_events_switch {rs : List (String × List String)}
    {uid emoji e0 : String} {us0 : List String}
    (h1 : bucketCount uid rs ≤ 1)
    (hl : rs.lookup e0 = some us0) (hm : uid ∈ us0) (hne : e0 ≠ emoji) :
    (apply_add_reaction rs uid emoji).2 =
      [REvent.removeEv e0 uid, REvent.addEv emoji uid] := by
  have hsnd := rur_snd_eq h1 hl hm
  have hcond : (match rs.lookup emoji with
      | some us => decide (uid ∈ us)
      | none => false) = false := by
    cases hlk : rs.lookup emoji with
    | none => rfl
    | some us =>
      by_cases hmm : uid ∈ us
      · exact absurd (lookup_uid_unique h1 hl hm hlk hmm) hne
      · simp [hmm]
  simp [apply_add_reaction, hcond, hsnd]

/-! ## Lemmas about the chat collection (for claim C7) -/

theorem find_id_of_mem {l : List Chat} {c : Chat}
    (hk : (l.map Chat.id).Nodup) (hc : c ∈ l) :
    l.find? (fun x => decide (x.id = c.id)) = some c := by
  induction l with
  | nil => cases hc
  | cons a rest ih =>
    rw [List.map_cons] at hk
    rcases List.mem_cons.mp hc with h | h
    · subst h
      simp [List.find?]
    · have hne : a.id ≠ c.id := by
        intro heq
        have hmem : c.id ∈ rest.map Chat.id := List.mem_map_of_mem Chat.id h
        rw [← heq] at hmem
        exact (List.nodup_cons.mp hk).1 hmem
      rw [List.find?_cons_of_neg _ (by simp [hne])]
      exact ih (List.nodup_cons.mp hk).2 h

theorem get_chat_unique {db : DB} {c : Chat} {cid : String}
    (hk : (db.chats.map Chat.id).Nodup) (hc : c ∈ db.chats)
    (hid : c.id = cid) : get_chat_by_id db cid = some c := by
  subst hid
  unfold get_chat_by_id
  exact find_id_of_mem hk hc

theorem update_chat_ids (db : DB) (cid : String) (f : Chat → Chat)
    (hfid : ∀ c, (f c).id = c.id) :
    (update_chat db cid f).chats.map Chat.id = db.chats.map Chat.id := by
  unfold update_chat
  dsimp only
  rw [List.map_map]
  refine List.map_congr_left (fun c _ => ?_)
  dsimp only [Function.comp_apply]
  split
  · exact hfid c
  · rfl

theorem directInv_update {db : DB} {cid : String} {f : Chat → Chat}
    {chat : Chat}
    (hfid : ∀ c, (f c).id = c.id) (hft : ∀ c, (f c).chat_type = c.chat_type)
    (hget : get_chat_by_id db cid = some chat)
    (hnd : chat.chat_type ≠ "direct")
    (hinv : DirectInv db) : DirectInv (update_chat db cid f) := by
  obtain ⟨hk, hdir⟩ := hinv
  constructor
  · rw [update_chat_ids db cid f hfid]
    exact hk
  · intro c' hc' hdt
    unfold update_chat at hc'
    dsimp only at hc'
    rcases List.mem_map.mp hc' with ⟨c, hc, hceq⟩
    by_cases h : c.id = cid
    · have hgc : get_chat_by_id db cid = some c := get_chat_unique hk hc h
      rw [hget] at hgc
      have hcchat : c = chat := by
        injection hgc with hh
        exact hh.symm
      rw [if_pos h] at hceq
      rw [← hceq] at hdt
      rw [hft] at hdt
      rw [hcchat] at hdt
      exact absurd hdt hnd
    · rw [if_neg h] at hceq
      rw [← hceq]
      exact hdir c hc (hceq ▸ hdt)

theorem directInv_insert (db : DB) (chat : Chat)
    (hfresh : ∀ c ∈ db.chats, c.id ≠ chat.id)
    (hinv : DirectInv db)
    (hchat : chat.chat_type = "direct" →
      chat.participants.length = 2 ∧ chat.admins = [chat.created_by]) :
    DirectInv { db with chats := db.chats ++ [chat] } := by
  obtain ⟨hk, hdir⟩ := hinv
  constructor
  · dsimp only
    rw [List.map_append, List.nodup_append]
    refine ⟨hk, by simp, ?_⟩
    intro a ha hb
    simp only [List.map_cons, List.map_nil, List.mem_singleton] at hb
    rcases List.mem_map.mp ha with ⟨c, hc, hceq⟩
    exact hfresh c hc (hceq.trans hb)
  · intro c hc hcd
    dsimp only at hc
    rcases List.mem_append.mp hc with h | h
    · exact hdir c h hcd
    · simp only [List.mem_singleton] at h
      subst h
      exact hchat hcd

theorem directInv_create {db : DB} {cd : ChatCreate} {cu nid : String}
    (hfresh : opFresh db (ChatOp.create cd cu nid) = true)
    (hinv : DirectInv db) :
    DirectInv (route_create_new_chat db cd cu nid).2 := by
  have hfr : ∀ c ∈ db.chats, c.id ≠ nid := by
    simp only [opFresh, List.all_eq_true, decide_eq_true_eq] at hfresh
    exact hfresh
  simp only [route_create_new_chat]
  split
  · split
    · exact hinv
    case isFalse hg =>
      split
      · exact hinv
      · refine directInv_insert db _ (fun c hc => hfr c hc) hinv ?_
        intro hcd
        refine ⟨?_, rfl⟩
        rcases not_and_or.mp hg with h2 | h2
        · exact absurd hcd h2
        · exact not_not.mp h2
  · split
    · exact hinv
    case isFalse hg =>
      split
      · exact hinv
      · refine directInv_insert db _ (fun c hc => hfr c hc) hinv ?_
        intro hcd
        refine ⟨?_, rfl⟩
        rcases not_and_or.mp hg with h2 | h2
        · exact absurd hcd h2
        · exact not_not.mp h2

theorem directInv_step (db : DB) (op : ChatOp)
    (hfresh : opFresh db op = true) (hinv : DirectInv db) :
    DirectInv (applyChatOp db op) := by
  cases op with
  | create cd cu nid => exact directInv_create hfresh hinv
  | addParts cid us cu =>
    show DirectInv (route_add_participants db cid us cu).2
    unfold route_add_participants
    cases hget : get_chat_by_id db cid with
    | none => exact hinv
    | some chat =>
      dsimp only
      split
      · exact hinv
      case isFalse hnd =>
        split
        · exact hinv
        · exact directInv_update (fun _ => rfl) (fun _ => rfl) hget hnd
            ⟨(hinv).1, (hinv).2⟩

  | removePart cid uid cu =>
    show DirectInv (route_remove_participant db cid uid cu).2
    unfold route_remove_participant
    cases hget : get_chat_by_id db cid with
    | none => exact hinv
    | some chat =>
      dsimp only
      split
      · exact hinv
      case isFalse hnd =>
        split
        · exact hinv
        · exact directInv_update (fun _ => rfl) (fun _ => rfl) hget hnd hinv
  | promote cid uid cu =>
    show DirectInv (route_promote_admin db cid uid cu).2
    unfold route_promote_admin
    cases hget : get_chat_by_id db cid with
    | none => exact hinv
    | some chat =>
      dsimp only
      split
      · exact hinv
      case isFalse hnd =>
        split
        · exact hinv
        · split
          · exact hinv
          · exact directInv_update (fun _ => rfl) (fun _ => rfl) hget hnd hinv
  | demote cid uid cu =>
    show DirectInv (route_demote_admin db cid uid cu).2
    unfold route_demote_admin
    cases hget : get_chat_by_id db cid with
    | none => exact hinv
    | some chat =>
      dsimp only
      split
      · exact hinv
      case isFalse hnd =>
        split
        · exact hinv
        · split
          · exact hinv
          · exact directInv_update (fun _ => rfl) (fun _ => rfl) hget hnd hinv
  | updateInfo cid v cu =>
    show DirectInv (route_update_chat db cid v cu).2
    unfold route_update_chat
    cases hget : get_chat_by_id db cid with
    | none => exact hinv
    | some chat =>
      dsimp only
      split
      · exact hinv
      case isFalse hnd =>
        split
        · exact hinv
        · exact directInv_update (fun _ => rfl) (fun _ => rfl) hget hnd hinv

theorem directInv_runChatOps {db : DB} (ops : List ChatOp)
    (hf : freshRun db ops = true) (hinv : DirectInv db) :
    DirectInv (runChatOps db ops) := by
  induction ops generalizing db with
  | nil => exact hinv
  | cons op rest ih =>
    simp only [freshRun, Bool.and_eq_true] at hf
    exact ih hf.2 (directInv_step db op hf.1 hinv)

theorem directInv_empty : DirectInv dbEmpty :=
  ⟨List.nodup_nil, fun c hc => by simp [dbEmpty] at hc⟩

/-! ## Lemmas about message updates (for claims C5, C6, C10) -/

theorem find_msg_update {mid : String} {now : Nat} {f : Msg → Msg}
    (hf : ∀ x, (f x).id = x.id) :
    ∀ l : List Msg,
    (l.map (fun m => if m.id = mid then { f m with updated_at := now } else m)).find?
        (fun m => decide (m.id = mid)) =
      (l.find? (fun m => decide (m.id = mid))).map
        (fun m => if m.id = mid then { f m with updated_at := now } else m) := by
  intro l
  induction l with
  | nil => rfl
  | cons m rest ih =>
    simp only [List.map_cons, List.find?_cons]
    by_cases h : m.id = mid
    · simp [h, hf]
    · simp only [if_neg h]
      have hd : (decide (m.id = mid)) = false := by simp [h]
      simp only [hd]
      exact ih

theorem get_message_update {db : DB} {mid : String} {m : Msg} {now : Nat}
    {f : Msg → Msg} (hf : ∀ x, (f x).id = x.id)
    (hm : get_message_by_id db mid = some m) :
    get_message_by_id (update_message db mid now f) mid =
      some { f m with updated_at := now } := by
  have hid : m.id = mid := by
    have := List.find?_some hm
    simpa using this
  unfold get_message_by_id update_message
  dsimp only
  rw [find_msg_update hf db.messages]
  unfold get_message_by_id at hm
  rw [hm]
  simp [hid]

/-! ## Claim theorems -/

/-- C1 (counterexample): the claim says a non-participant of an existing
chat gets NotFound, never a permission error.  In the store `dbGate`, chat
`"c"` exists and `"x"` is not a participant, yet `get_chat` answers the
403 permission error `"Not a participant of this chat"`, not 404. -/
theorem spec_c1_counterexample :
    (∃ chat, get_chat_by_id dbGate "c" = some chat ∧
      "x" ∉ chat.participants) ∧
    route_get_chat dbGate "c" "x" =
      .error ⟨403, "Not a participant of this chat"⟩ ∧
    route_get_chat dbGate "c" "x" ≠ .error ⟨404, "Chat not found"⟩ := by
  refine ⟨⟨_, rfl, by decide⟩, rfl, ?_⟩
  intro hcontra
  have h1 : route_get_chat dbGate "c" "x" =
      .error ⟨403, "Not a participant of this chat"⟩ := rfl
  rw [h1] at hcontra
  simp at hcontra

/-- C1 (amended): a chat-scoped read or mutation by a non-participant of
an existing chat fails with PermissionDenied 403 (`get_chat`,
`get_messages` and `send_message` answer `"Not a participant of this
chat"`; `check_user_in_chat` raises its membership errors), so chat
existence is leaked to non-members; NotFound 404 is returned exactly when
the chat is absent. -/
theorem spec_c1_amended (db : DB) (chat_id uid : String) (md : MessageCreate)
    (nid : String) (now limit skip : Nat) :
    (get_chat_by_id db chat_id = none →
      route_get_chat db chat_id uid = .error ⟨404, "Chat not found"⟩ ∧
      route_get_messages db chat_id uid limit skip =
        .error ⟨404, "Chat not found"⟩ ∧
      (route_send_message db chat_id md uid nid now).1 =
        .error ⟨404, "Chat not found"⟩ ∧
      check_user_in_chat db chat_id uid = .error ⟨404, "Chat not found"⟩) ∧
    (∀ chat, get_chat_by_id db chat_id = some chat →
      uid ∉ chat.participants →
      route_get_chat db chat_id uid =
        .error ⟨403, "Not a participant of this chat"⟩ ∧
      route_get_messages db chat_id uid limit skip =
        .error ⟨403, "Not a participant of this chat"⟩ ∧
      (route_send_message db chat_id md uid nid now).1 =
        .error ⟨403, "Not a participant of this chat"⟩) ∧
    (∀ chat, get_chat_by_id db chat_id = some chat →
      chat.chat_type = "channel" → uid ∉ chat.subscribers →
      check_user_in_chat db chat_id uid =
        .error ⟨403, "You are not subscribed to this channel"⟩) ∧
    (∀ chat, get_chat_by_id db chat_id = some chat →
      chat.chat_type ≠ "channel" →
      uid ∉ chat.members.map (fun m => m.user_id) →
      check_user_in_chat db chat_id uid =
        .error ⟨403, "You are not a member of this chat"⟩) := by
  refine ⟨?_, ?_, ?_, ?_⟩
  · intro h
    refine ⟨?_, ?_, ?_, ?_⟩
    · simp [route_get_chat, h]
    · simp [route_get_messages, h]
    · simp [route_send_message, h]
    · simp [check_user_in_chat, h]
  · intro chat hsome hni
    refine ⟨?_, ?_, ?_⟩
    · simp [route_get_chat, hsome, hni]
    · simp [route_get_messages, hsome, hni]
    · simp [route_send_message, hsome, hni]
  · intro chat hsome hch hns
    simp [check_user_in_chat, hsome, hch, hns]
  · intro chat hsome hch hnm
    simp [check_user_in_chat, hsome, hch, hnm]

/-- C1 (witness): applying the amended theorem at the concrete store
`dbGate`: the stranger `"x"` gets 403 from the existing chat `"c"` and 404
from the absent chat `"zz"`. -/
theorem spec_c1_amended_witness :
    route_get_chat dbGate "c" "x" =
      .error ⟨403, "Not a participant of this chat"⟩ ∧
    route_get_chat dbGate "zz" "x" = .error ⟨404, "Chat not found"⟩ ∧
    check_user_in_chat dbGate "c" "x" =
      .error ⟨403, "You are not a member of this chat"⟩ := by
  refine ⟨?_, ?_, ?_⟩
  · exact ((spec_c1_amended dbGate "c" "x" ⟨"hi", "text", none⟩ "m9" 0 50 0).2.1
      _ rfl (by decide)).1
  · exact ((spec_c1_amended dbGate "zz" "x" ⟨"hi", "text", none⟩ "m9" 0 50 0).1
      rfl).1
  · exact (spec_c1_amended dbGate "c" "x" ⟨"hi", "text", none⟩ "m9" 0 50 0).2.2.2
      _ rfl (by decide) (by decide)

/-- C2 (code_bug evidence): on the empty registry the connection `"s1"` is
unauthenticated; `join_room` and the socket `send_message` reject it with
`'User not authenticated'` leaving the registry unchanged, but `join_chat`
and `typing` perform no authentication check at all: fed a client-supplied
`user_id` they mutate the presence and typing maps. -/
theorem spec_c2_unauth_join_chat_mutates :
    findUserBySid regEmpty "s1" = none ∧
    sock_join_room regEmpty "s1" (some "c") =
      (regEmpty, ["error: User not authenticated"]) ∧
    sock_send_message dbEmpty regEmpty "s1" (some "c") (some "hi") =
      (regEmpty, ["error: User not authenticated"]) ∧
    (sock_join_chat regEmpty "s1" (some "c") (some "u")).1 =
      { regEmpty with chat_presence := [("c", ["u"])] } ∧
    (sock_typing regEmpty "s1" (some "c") (some "u") true).1 =
      { regEmpty with typing_users := [("c", ["u"])] } := by
  exact ⟨rfl, rfl, rfl, rfl, rfl⟩

/-- C3 (code_bug evidence): in the group `"g"` of `dbGroupNoSend` the
default permissions disable member posting.  The authorization engine's
`check_can_send_message` computes exactly the claimed effective
permission: it denies the plain member `"u"`, and allows the same send
after the explicit per-identity `can_send_messages = true` override
(`dbGroupOverride`).  The HTTP `send_message` route never calls the
engine, and cannot behave as claimed at all: every send that passes its
participant and block gates hits the missing `ChatType.CHANNEL` member
and answers the sanitized 500 — neither the claimed PermissionDenied
before the override nor the claimed success after it. -/
theorem spec_c3_send_route_divergence :
    check_can_send_message dbGroupNoSend "g" "u" =
      .error ⟨403, "Sending messages is disabled in this group"⟩ ∧
    route_send_message dbGroupNoSend "g" ⟨"hi", "text", none⟩ "u" "m1" 5 =
      (.error ⟨500, "Internal server error"⟩, dbGroupNoSend) ∧
    (∃ chat, check_can_send_message dbGroupOverride "g" "u" = .ok chat) ∧
    route_send_message dbGroupOverride "g" ⟨"hi", "text", none⟩ "u" "m1" 5 =
      (.error ⟨500, "Internal server error"⟩, dbGroupOverride) := by
  exact ⟨rfl, rfl, ⟨_, rfl⟩, rfl⟩

/-- C4 (confirmed): starting from the empty reaction dict of a fresh
message, after any sequence of add-reaction and remove-reaction calls each
identity occurs in at most one emoji bucket; and the spec's Scenario 4 —
`x` reacts 👍 then ❤️ — leaves exactly one reactor entry for `x`, under
❤️ only. -/
theorem spec_c4_reaction_partition :
    (∀ ops : List ReactOp, ∀ uid : String,
      bucketCount uid (runReactOps ops) ≤ 1) ∧
    runReactOps [ReactOp.addCall "x" "👍", ReactOp.addCall "x" "❤️"] =
      [("❤️", ["x"])] := by
  refine ⟨fun ops uid => (rwf_runReactOps ops).at_most_one uid, ?_⟩
  rfl

/-- C5 (confirmed): for an existing message, an author edit within 48
hours (172800 s) succeeds, replacing the content and setting
`edited = true`; an author edit after 48 hours fails with the
`TooOldToEdit` error and leaves the store unchanged; and any non-author
edit is denied — which in particular covers every case outside the
claim's channel-admin carve-out (the route denies even that path). -/
theorem spec_c5_edit_window (db : DB) (mid content uid : String) (now : Nat)
    (m : Msg) (hm : get_message_by_id db mid = some m) :
    (m.sender_id = uid → now - m.created_at ≤ 172800 →
      (route_edit_message db mid content uid now).1 = .ok () ∧
      get_message_by_id (route_edit_message db mid content uid now).2 mid =
        some { m with content := content, edited := true,
                      updated_at := now }) ∧
    (m.sender_id = uid → now - m.created_at > 172800 →
      route_edit_message db mid content uid now =
        (.error ⟨400, "Message is too old to edit (48-hour limit)"⟩, db)) ∧
    (m.sender_id ≠ uid →
      route_edit_message db mid content uid now =
        (.error ⟨403, "Can only edit your own messages"⟩, db)) := by
  refine ⟨?_, ?_, ?_⟩
  · intro hs ht
    have hns : ¬m.sender_id ≠ uid := not_not.mpr hs
    have hnt : ¬now - m.created_at > 172800 := not_lt.mpr ht
    constructor
    · simp [route_edit_message, hm, hns, hnt]
    · have hdb : (route_edit_message db mid content uid now).2 =
          update_message db mid now
            (fun msg => { msg with content := content, edited := true }) := by
        simp [route_edit_message, hm, hns, hnt]
      rw [hdb]
      exact get_message_update (fun x => rfl) hm
  · intro hs ht
    have hns : ¬m.sender_id ≠ uid := not_not.mpr hs
    simp [route_edit_message, hm, hns, ht]
  · intro hs
    simp [route_edit_message, hm, hs]

/-- C5 (witness): in `dbMsg`, the author `a` edits message `m1` at time
100 (inside the window) successfully; at time 200000 (past 48 h) the edit
is rejected with the 48-hour error and the store is unchanged; the
non-author `b` is denied. -/
theorem spec_c5_edit_window_witness :
    (route_edit_message dbMsg "m1" "new" "a" 100).1 = .ok () ∧
    route_edit_message dbMsg "m1" "new" "a" 200000 =
      (.error ⟨400, "Message is too old to edit (48-hour limit)"⟩, dbMsg) ∧
    route_edit_message dbMsg "m1" "new" "b" 100 =
      (.error ⟨403, "Can only edit your own messages"⟩, dbMsg) := by
  refine ⟨((spec_c5_edit_window dbMsg "m1" "new" "a" 100 _ rfl).1 rfl
      (by decide)).1,
    (spec_c5_edit_window dbMsg "m1" "new" "a" 200000 _ rfl).2.1 rfl (by decide),
    (spec_c5_edit_window dbMsg "m1" "new" "b" 100 _ rfl).2.2 (by decide)⟩

/-- C6 (counterexample): the claim says a Channel admin holding explicit
`can_delete_messages` may delete others' messages.  In `dbChannelDel` the
channel `"ch"` has admin `"adm"` whose admin rights carry
`can_delete_messages`, and message `"m1"` was written by the owner `"o"`;
yet delete-for-everyone by `"adm"` is denied with 403 and the store is
unchanged. -/
theorem spec_c6_counterexample :
    get_chat_by_id dbChannelDel "ch" =
      some { id := "ch", chat_type := "channel",
             participants := ["o", "adm"], admins := ["adm"],
             created_by := "o", owner_id := "o",
             members := [{ user_id := "adm", role := some "admin",
                           admin_rights :=
                             some (.pdict [("permissions",
                               .rlist ["can_delete_messages"])]) }],
             subscribers := ["o", "adm"] } ∧
    get_message_by_id dbChannelDel "m1" =
      some { id := "m1", chat_id := "ch", sender_id := "o",
             content := "hello", created_at := 0 } ∧
    route_delete_message dbChannelDel "m1" true "adm" 10 =
      (.error ⟨403, "Can only delete your own messages for everyone"⟩,
        dbChannelDel) := by
  exact ⟨rfl, rfl, rfl⟩

/-- C6 (amended): delete-for-everyone succeeds exactly for the message's
author, in every chat kind — Direct, Group and Channel alike, with no
admin override anywhere in the route; on success the content is replaced
by the tombstone `"This message was deleted"` and `deleted` is set; every
other actor is denied with 403 and the store is unchanged. -/
theorem spec_c6_amended (db : DB) (mid uid : String) (now : Nat) (m : Msg)
    (hm : get_message_by_id db mid = some m) :
    (m.sender_id = uid →
      (route_delete_message db mid true uid now).1 = .ok () ∧
      get_message_by_id (route_delete_message db mid true uid now).2 mid =
        some { m with deleted := true,
                      content := "This message was deleted",
                      updated_at := now }) ∧
    (m.sender_id ≠ uid →
      route_delete_message db mid true uid now =
        (.error ⟨403, "Can only delete your own messages for everyone"⟩,
          db)) := by
  constructor
  · intro hs
    have hns : ¬m.sender_id ≠ uid := not_not.mpr hs
    constructor
    · simp [route_delete_message, hm, hns]
    · have hdb : (route_delete_message db mid true uid now).2 =
          update_message db mid now
            (fun msg => { msg with deleted := true,
                                   content := "This message was deleted" }) := by
        simp [route_delete_message, hm, hns]
      rw [hdb]
      exact get_message_update (fun x => rfl) hm
  · intro hs
    simp [route_delete_message, hm, hs]

/-- C6 (witness): in `dbMsg` the author `a` deletes `m1` for everyone —
the message becomes the tombstone with `deleted = true`; the non-author
`b` is denied. -/
theorem spec_c6_amended_witness :
    (route_delete_message dbMsg "m1" true "a" 7).1 = .ok () ∧
    get_message_by_id (route_delete_message dbMsg "m1" true "a" 7).2 "m1" =
      some { id := "m1", chat_id := "c", sender_id := "a",
             content := "This message was deleted", deleted := true,
             created_at := 0, updated_at := 7 } ∧
    route_delete_message dbMsg "m1" true "b" 7 =
      (.error ⟨403, "Can only delete your own messages for everyone"⟩,
        dbMsg) := by
  refine ⟨((spec_c6_amended dbMsg "m1" "a" 7 _ rfl).1 rfl).1,
    ((spec_c6_amended dbMsg "m1" "a" 7 _ rfl).1 rfl).2,
    (spec_c6_amended dbMsg "m1" "b" 7 _ rfl).2 (by decide)⟩

/-- C7 (counterexample): the claim says no member of a Direct chat ever
holds the admin role; but creating a direct chat of `a` and `b` stores
`admins = ["a"]` — the creator, a member of the direct chat, is an
admin from the moment of creation. -/
theorem spec_c7_counterexample :
    ∃ c : Chat,
      (route_create_new_chat dbEmpty ⟨"direct", ["a", "b"]⟩ "a" "d1").2.chats
        = [c] ∧
      c.chat_type = "direct" ∧ "a" ∈ c.participants ∧ c.admins = ["a"] := by
  exact ⟨_, rfl, rfl, by decide, rfl⟩

/-- C7 (amended): along every run of the chat-mutating routes from the
empty store (with fresh created ids), every direct chat always has exactly
two participants and exactly its creator in the `admins` list; direct
creation with a participant count other than two is rejected with 400, and
participant addition or removal on a direct chat is rejected with 400,
leaving the store unchanged. -/
theorem spec_c7_amended :
    (∀ ops : List ChatOp, freshRun dbEmpty ops = true →
      ∀ c ∈ (runChatOps dbEmpty ops).chats, c.chat_type = "direct" →
        c.participants.length = 2 ∧ c.admins = [c.created_by]) ∧
    (∀ (db : DB) (cd : ChatCreate) (cu nid : String),
      cd.chat_type = "direct" →
      (if cu ∈ cd.participants then cd.participants
       else cd.participants ++ [cu]).length ≠ 2 →
      route_create_new_chat db cd cu nid =
        (.error ⟨400, "Direct chat must have exactly 2 participants"⟩, db)) ∧
    (∀ (db : DB) (cid : String) (us : List String) (cu : String)
      (chat : Chat), get_chat_by_id db cid = some chat →
      chat.chat_type = "direct" →
      route_add_participants db cid us cu =
        (.error ⟨400, "Cannot add participants to direct chat"⟩, db)) ∧
    (∀ (db : DB) (cid uid cu : String) (chat : Chat),
      get_chat_by_id db cid = some chat → chat.chat_type = "direct" →
      route_remove_participant db cid uid cu =
        (.error ⟨400, "Cannot remove participants from direct chat"⟩, db)) := by
  refine ⟨?_, ?_, ?_, ?_⟩
  · intro ops hf c hc hcd
    exact (directInv_runChatOps ops hf directInv_empty).2 c hc hcd
  · intro db cd cu nid hdt hlen
    simp [route_create_new_chat, hdt, hlen]
  · intro db cid us cu chat hget hdt
    simp [route_add_participants, hget, hdt]
  · intro db cid uid cu chat hget hdt
    simp [route_remove_participant, hget, hdt]

/-- C7 (witness): applying the amended theorem concretely — after creating
one direct chat from the empty store the invariant holds of that store;
a direct creation with three participants is rejected; add and remove of
participants on the direct chat of `dbDirect` are rejected. -/
theorem spec_c7_amended_witness :
    (∀ c ∈ (runChatOps dbEmpty
        [ChatOp.create ⟨"direct", ["a", "b"]⟩ "a" "d1"]).chats,
      c.chat_type = "direct" →
        c.participants.length = 2 ∧ c.admins = [c.created_by]) ∧
    route_create_new_chat dbEmpty ⟨"direct", ["a", "b", "e"]⟩ "a" "d2" =
      (.error ⟨400, "Direct chat must have exactly 2 participants"⟩,
        dbEmpty) ∧
    route_add_participants dbDirect "d" ["e"] "a" =
      (.error ⟨400, "Cannot add participants to direct chat"⟩, dbDirect) ∧
    route_remove_participant dbDirect "d" "b" "a" =
      (.error ⟨400, "Cannot remove participants from direct chat"⟩,
        dbDirect) := by
  refine ⟨spec_c7_amended.1 [ChatOp.create ⟨"direct", ["a", "b"]⟩ "a" "d1"]
      (by decide),
    spec_c7_amended.2.1 dbEmpty ⟨"direct", ["a", "b", "e"]⟩ "a" "d2" rfl
      (by decide),
    spec_c7_amended.2.2.1 dbDirect "d" ["e"] "a" _ rfl rfl,
    spec_c7_amended.2.2.2 dbDirect "d" "b" "a" _ rfl rfl⟩

/-- C8 (counterexample): the claim says whenever `can_message(a,b)` allows,
mutual friendship holds.  In `dbOneWayFriends`, `b` is in `a`'s friends
list but not conversely and nobody blocks anybody; `check_can_message_user`
allows, yet `check_are_friends b a` is false — the check is
one-directional. -/
theorem spec_c8_counterexample :
    check_can_message_user dbOneWayFriends "a" "b" = .ok () ∧
    check_are_friends dbOneWayFriends "b" "a" = false ∧
    is_blocked_by_any dbOneWayFriends "a" "b" = false := by
  exact ⟨rfl, rfl, rfl⟩

/-- C8 (amended): `check_can_message_user` allows exactly when neither
side has blocked the other and the target occurs in the actor's friends
list (a one-directional check); a block in either direction is denied as
Blocked (checked first), a missing friendship as NotFriends; and on stores
whose friends relation is symmetric for the pair — what the friend-accept
flow maintains — an allowed pair is mutually befriended. -/
theorem spec_c8_amended (db : DB) (a b : String) :
    (check_can_message_user db a b = .ok () ↔
      is_blocked_by_any db a b = false ∧ check_are_friends db a b = true) ∧
    (is_blocked_by_any db a b = true →
      check_can_message_user db a b =
        .error ⟨403, "You cannot message this user"⟩) ∧
    (is_blocked_by_any db a b = false → check_are_friends db a b = false →
      check_can_message_user db a b =
        .error ⟨403, "You can only message friends. Send a friend request first."⟩) ∧
    (check_can_message_user db a b = .ok () →
      check_are_friends db b a = check_are_friends db a b →
      is_blocked_by_any db a b = false ∧
      check_are_friends db a b = true ∧ check_are_friends db b a = true) := by
  have hiff : check_can_message_user db a b = .ok () ↔
      is_blocked_by_any db a b = false ∧ check_are_friends db a b = true := by
    constructor
    · intro h
      by_cases hb : is_blocked_by_any db a b
      · simp [check_can_message_user, hb] at h
      · by_cases hf : check_are_friends db a b
        · exact ⟨by simp [hb], hf⟩
        · simp [check_can_message_user, hb, hf] at h
    · rintro ⟨hb, hf⟩
      simp [check_can_message_user, hb, hf]
  refine ⟨hiff, ?_, ?_, ?_⟩
  · intro hb
    simp [check_can_message_user, hb]
  · intro hb hf
    simp [check_can_message_user, hb, hf]
  · intro h hsym
    obtain ⟨hb, hf⟩ := hiff.mp h
    exact ⟨hb, hf, hsym.trans hf⟩

/-- C8 (witness): applying the amended theorem at `dbMutualFriends`
(symmetric friends lists, no blocks): messaging is allowed and mutual
friendship holds in both directions. -/
theorem spec_c8_amended_witness :
    check_can_message_user dbMutualFriends "a" "b" = .ok () ∧
    (is_blocked_by_any dbMutualFriends "a" "b" = false ∧
      check_are_friends dbMutualFriends "a" "b" = true ∧
      check_are_friends dbMutualFriends "b" "a" = true) := by
  refine ⟨?_, ?_⟩
  · exact (spec_c8_amended dbMutualFriends "a" "b").1.mpr ⟨rfl, rfl⟩
  · exact (spec_c8_amended dbMutualFriends "a" "b").2.2.2
      ((spec_c8_amended dbMutualFriends "a" "b").1.mpr ⟨rfl, rfl⟩) rfl

/-- C9 (counterexample): the claim says every reaction call emits exactly
one combined change event, never a separate remove followed by an add.
Switching from 👍 to ❤️ emits two broadcasts: a `remove` for the old
bucket immediately followed by an `add` for the new one. -/
theorem spec_c9_counterexample :
    (apply_add_reaction [("👍", ["x"])] "x" "❤️").2 =
      [REvent.removeEv "👍" "x", REvent.addEv "❤️" "x"] ∧
    (apply_add_reaction [("👍", ["x"])] "x" "❤️").2.length ≠ 1 := by
  exact ⟨rfl, by decide⟩

/-- C9 (amended): on a well-formed reaction dict (the actor in at most one
bucket), one `add_reaction` call emits: exactly one `remove` broadcast
when the request equals the actor's current emoji (toggle-off); exactly
one `add` broadcast when the actor had no reaction; and a `remove` for the
old bucket followed by an `add` for the requested one — two separate
events, not one combined — when the actor switches emoji. -/
theorem spec_c9_amended (rs : List (String × List String))
    (uid emoji : String) (h1 : bucketCount uid rs ≤ 1) :
    (∀ us, rs.lookup emoji = some us → uid ∈ us →
      (apply_add_reaction rs uid emoji).2 = [REvent.removeEv emoji uid]) ∧
    (bucketCount uid rs = 0 →
      (apply_add_reaction rs uid emoji).2 = [REvent.addEv emoji uid]) ∧
    (∀ e0 us0, rs.lookup e0 = some us0 → uid ∈ us0 → e0 ≠ emoji →
      (apply_add_reaction rs uid emoji).2 =
        [REvent.removeEv e0 uid, REvent.addEv emoji uid]) := by
  exact ⟨fun us hl hm => apply_add_events_toggle h1 hl hm,
    fun h0 => apply_add_events_fresh h0,
    fun e0 us0 hl hm hne => apply_add_events_switch h1 hl hm hne⟩

/-- C9 (witness): the three event shapes at concrete dicts — toggle-off of
👍 emits one remove; a first reaction emits one add; switching 👍→❤️
emits remove then add. -/
theorem spec_c9_amended_witness :
    (apply_add_reaction [("👍", ["x"])] "x" "👍").2 =
      [REvent.removeEv "👍" "x"] ∧
    (apply_add_reaction [] "x" "👍").2 = [REvent.addEv "👍" "x"] ∧
    (apply_add_reaction [("👍", ["x"])] "x" "❤️").2 =
      [REvent.removeEv "👍" "x", REvent.addEv "❤️" "x"] := by
  refine ⟨(spec_c9_amended [("👍", ["x"])] "x" "👍" (by decide)).1
      ["x"] rfl (by decide),
    (spec_c9_amended [] "x" "👍" (by decide)).2.1 rfl,
    (spec_c9_amended [("👍", ["x"])] "x" "❤️" (by decide)).2.2
      "👍" ["x"] rfl (by decide) (by decide)⟩

/-- C10 (confirmed): `add_reaction` and `mark_as_read` gate only on message
existence: when the message is absent both fail with 404 and change
nothing; when it exists they succeed and mutate (reactions updated,
actor appended to `read_by`) even under the explicit assumption that the
actor participates in no chat of the store — no membership or ban check
occurs. -/
theorem spec_c10_no_membership_gate (db : DB) (mid uid emoji : String)
    (now : Nat) :
    (get_message_by_id db mid = none →
      route_add_reaction db mid uid emoji now =
        (.error ⟨404, "Message not found"⟩, db, []) ∧
      route_mark_as_read db mid uid now =
        (.error ⟨404, "Message not found"⟩, db, [])) ∧
    (∀ m, get_message_by_id db mid = some m →
      (∀ c ∈ db.chats, uid ∉ c.participants) →
      (route_add_reaction db mid uid emoji now).1 =
        .ok (apply_add_reaction m.reactions uid emoji).1 ∧
      (route_mark_as_read db mid uid now).1 = .ok () ∧
      (∀ m', get_message_by_id (route_mark_as_read db mid uid now).2.1 mid =
        some m' → uid ∈ m'.read_by)) := by
  constructor
  · intro h
    constructor
    · simp [route_add_reaction, h]
    · simp [route_mark_as_read, h]
  · intro m hm _
    refine ⟨?_, ?_, ?_⟩
    · simp [route_add_reaction, hm]
    · by_cases hr : uid ∈ m.read_by
      · simp [route_mark_as_read, hm, hr]
      · simp [route_mark_as_read, hm, hr]
    · intro m' hm'
      by_cases hr : uid ∈ m.read_by
      · have hdb : (route_mark_as_read db mid uid now).2.1 = db := by
          simp [route_mark_as_read, hm, hr]
        rw [hdb, hm] at hm'
        cases hm'
        exact hr
      · have hdb : (route_mark_as_read db mid uid now).2.1 =
            update_message db mid now
              (fun msg => { msg with read_by := msg.read_by ++ [uid],
                                     status := "read" }) := by
          simp [route_mark_as_read, hm, hr]
        rw [hdb, get_message_update
          (f := fun msg => { msg with read_by := msg.read_by ++ [uid],
                                      status := "read" })
          (fun x => rfl) hm] at hm'
        cases hm'
        simp

/-- C10 (witness): in `dbMsg`, the identity `x` is a participant of no
chat, yet reacting to and marking message `m1` as read both succeed, and
`x` ends up in the message's `read_by`. -/
theorem spec_c10_witness :
    (route_add_reaction dbMsg "m1" "x" "👍" 3).1 = .ok [("👍", ["x"])] ∧
    (route_mark_as_read dbMsg "m1" "x" 3).1 = .ok () ∧
    (∀ m', get_message_by_id (route_mark_as_read dbMsg "m1" "x" 3).2.1 "m1" =
      some m' → "x" ∈ m'.read_by) := by
  have h := (spec_c10_no_membership_gate dbMsg "m1" "x" "👍" 3).2 _ rfl
    (by decide)
  exact ⟨h.1, h.2.1, h.2.2⟩
